import Mathlib

/-!
Shallow embedding of the matchmaking and session-relay core of the
anonymous-chat server (src/app.js): the ChatManager data structures
(waiting queue, active rooms, user registry), the LocationService distance
computation, and the Socket.IO event handlers.

Modelling conventions:
* Socket ids are Nat (opaque identifiers in the source).
* JS Maps (activeRooms, userSockets) become association lists in insertion
  order; Map.set overwrites in place, Map.delete filters.
* uuidv4 id generation is modelled as a fresh-id counter (nextId) carried in
  the ChatManager state; the source treats collisions as negligible.
* JS null/undefined becomes Option; the JS falsy test on a number is true
  for null/undefined and for 0.
* Date.now() is a `now` parameter threaded through each handler.
* `io.to(room.id).emit(...)` (Socket.IO room broadcast) is modelled as one
  emission to each of the room's two members, who joined the relay group
  when the room was created.
* Emitted events are collected in a list of (target socket id, event).
-/

/-- Coarse location attached to a user (geolocation lookup result). -/
structure Location where
  country : String
  region : String
  city : String
  latitude : Option ℚ
  longitude : Option ℚ
deriving DecidableEq, Repr

/-- Registered user profile: the object stored in userSockets and (as a
waiting entry, with joinedAt refreshed) in waitingUsers. -/
structure User where
  socketId : Nat
  nickname : Option String
  location : Option Location
  joinedAt : Nat
deriving DecidableEq, Repr

/-- Chat message as stored in a room log and broadcast as new-message.
Fields not used by a given message kind are none. -/
structure Message where
  id : Nat
  kind : String
  content : Option String
  senderId : Nat
  timestamp : Nat
  mediaType : Option String
  thumbnailUrl : Option String
  filename : Option String
  originalName : Option String
  mimetype : Option String
  size : Option Nat
  duration : Option Nat
deriving DecidableEq, Repr

/-- Active two-party chat room. -/
structure Room where
  id : Nat
  user1 : User
  user2 : User
  createdAt : Nat
  messages : List Message
  distance : Option ℤ
deriving DecidableEq, Repr

/-- The shared in-memory state of the server (class ChatManager),
plus the fresh-id counter modelling uuidv4. -/
structure ChatManager where
  waitingUsers : List User
  activeRooms : List Room
  userSockets : List (Nat × User)
  nextId : Nat
deriving DecidableEq, Repr

/-- Empty manager at server start. -/
def initManager : ChatManager := ⟨[], [], [], 0⟩

/-- JS Map.set on an association list: overwrite in place if the key is
present, else append (insertion order preserved). -/
def setEntry (l : List (Nat × User)) (k : Nat) (v : User) : List (Nat × User) :=
  if l.any (fun p => p.1 == k) then
    l.map (fun p => if p.1 == k then (k, v) else p)
  else
    l ++ [(k, v)]

/-- JS Map.get on an association list. -/
def lookupUser (l : List (Nat × User)) (k : Nat) : Option User :=
  (l.find? (fun p => p.1 == k)).map Prod.snd

/-- JS Map.delete on an association list. -/
def deleteEntry (l : List (Nat × User)) (k : Nat) : List (Nat × User) :=
  l.filter (fun p => p.1 != k)

/-- ChatManager.addWaitingUser: push {socketId, ...userInfo, joinedAt: Date.now()}. -/
def ChatManager.addWaitingUser (m : ChatManager) (u : User) (now : Nat) : ChatManager :=
  { m with waitingUsers := m.waitingUsers ++ [{ u with joinedAt := now }] }

/-- ChatManager.removeWaitingUser: filter out every entry with this socket id. -/
def ChatManager.removeWaitingUser (m : ChatManager) (sid : Nat) : ChatManager :=
  { m with waitingUsers := m.waitingUsers.filter (fun u => u.socketId != sid) }

/-- ChatManager.findMatch: take the first waiting user whose socket id is not
the requester's; on success remove both the requester's and the matched
user's waiting entries. -/
def ChatManager.findMatch (m : ChatManager) (currentSocketId : Nat) :
    Option (User × ChatManager) :=
  match m.waitingUsers.filter (fun u => u.socketId != currentSocketId) with
  | [] => none
  | matchedUser :: _ =>
      some (matchedUser,
        (m.removeWaitingUser currentSocketId).removeWaitingUser matchedUser.socketId)

/-- JS falsy test on a nullable number: true for null/undefined and for 0. -/
def isFalsy (x : Option ℚ) : Bool :=
  match x with
  | none => true
  | some q => q == 0

open Classical in
/-- Math.atan2 on the reals. -/
noncomputable def atan2 (y x : ℝ) : ℝ :=
  if 0 < x then Real.arctan (y / x)
  else if x < 0 ∧ 0 ≤ y then Real.arctan (y / x) + Real.pi
  else if x < 0 then Real.arctan (y / x) - Real.pi
  else if 0 < y then Real.pi / 2
  else if y < 0 then -(Real.pi / 2)
  else 0

/-- Haversine great-circle distance in km between two coordinate pairs,
rounded to the nearest integer (Math.round rounds half toward +inf, as does
Mathlib's round). -/
noncomputable def haversineKm (lat1 lon1 lat2 lon2 : ℚ) : ℤ :=
  let R : ℝ := 6371
  let dLat : ℝ := ((lat2 - lat1 : ℚ) : ℝ) * Real.pi / 180
  let dLon : ℝ := ((lon2 - lon1 : ℚ) : ℝ) * Real.pi / 180
  let a : ℝ :=
    Real.sin (dLat / 2) * Real.sin (dLat / 2) +
      Real.cos ((lat1 : ℝ) * Real.pi / 180) * Real.cos ((lat2 : ℝ) * Real.pi / 180) *
        Real.sin (dLon / 2) * Real.sin (dLon / 2)
  let c : ℝ := 2 * atan2 (Real.sqrt a) (Real.sqrt (1 - a))
  round (R * c)

/-- LocationService.calculateDistance: returns null when any coordinate is
falsy (null/undefined or 0), else the rounded haversine distance. -/
noncomputable def calculateDistance (lat1 lon1 lat2 lon2 : Option ℚ) : Option ℤ :=
  if isFalsy lat1 || isFalsy lon1 || isFalsy lat2 || isFalsy lon2 then none
  else some (haversineKm (lat1.getD 0) (lon1.getD 0) (lat2.getD 0) (lon2.getD 0))

/-- ChatManager.createRoom: allocate a fresh room id, compute the distance
when both users carry a location, append the room to activeRooms. -/
noncomputable def ChatManager.createRoom (m : ChatManager) (user1 user2 : User)
    (now : Nat) : Room × ChatManager :=
  let roomId := m.nextId
  let distance : Option ℤ :=
    match user1.location, user2.location with
    | some l1, some l2 =>
        calculateDistance l1.latitude l1.longitude l2.latitude l2.longitude
    | _, _ => none
  let room : Room :=
    { id := roomId, user1 := user1, user2 := user2, createdAt := now,
      messages := [], distance := distance }
  (room, { m with activeRooms := m.activeRooms ++ [room], nextId := m.nextId + 1 })

/-- ChatManager.getRoomBySocketId: scan activeRooms in insertion order for a
room having this socket id as a member. -/
def ChatManager.getRoomBySocketId (m : ChatManager) (sid : Nat) : Option Room :=
  m.activeRooms.find? (fun r => r.user1.socketId == sid || r.user2.socketId == sid)

/-- activeRooms.get(roomId). -/
def ChatManager.getRoomById (m : ChatManager) (roomId : Nat) : Option Room :=
  m.activeRooms.find? (fun r => r.id == roomId)

/-- ChatManager.removeRoom: activeRooms.delete(roomId). -/
def ChatManager.removeRoom (m : ChatManager) (roomId : Nat) : ChatManager :=
  { m with activeRooms := m.activeRooms.filter (fun r => r.id != roomId) }

/-- ChatManager.getPartnerSocketId: the other member's socket id, via a room
lookup by id. -/
def ChatManager.getPartnerSocketId (m : ChatManager) (roomId sid : Nat) : Option Nat :=
  match m.getRoomById roomId with
  | none => none
  | some room =>
      if room.user1.socketId == sid then some room.user2.socketId
      else if room.user2.socketId == sid then some room.user1.socketId
      else none

/-- ChatManager.getPartnerInfo: the other member's profile. -/
def ChatManager.getPartnerInfo (m : ChatManager) (roomId sid : Nat) : Option User :=
  match m.getRoomById roomId with
  | none => none
  | some room =>
      if room.user1.socketId == sid then some room.user2
      else if room.user2.socketId == sid then some room.user1
      else none

/-- ChatManager.addMessageToRoom: append the message (timestamp refreshed) to
the room with this id, if present. -/
def ChatManager.addMessageToRoom (m : ChatManager) (roomId : Nat) (msg : Message)
    (now : Nat) : ChatManager :=
  { m with activeRooms := m.activeRooms.map (fun r =>
      if r.id == roomId then
        { r with messages := r.messages ++ [{ msg with timestamp := now }] }
      else r) }

/-- Summary of a partner's location as sent in partner-found /
partner-location payloads. -/
structure LocationSummary where
  country : String
  city : String
  region : String
  distance : Option ℤ
deriving DecidableEq, Repr

/-- Build the location summary the handlers attach to a payload. -/
def locationSummary (loc : Location) (distance : Option ℤ) : LocationSummary :=
  { country := loc.country, city := loc.city, region := loc.region,
    distance := distance }

/-- Events the server emits to clients. -/
inductive OutEvent where
  | joinedSystem (socketId : Nat) (location : Option Location)
  | errorMsg (message : String)
  | searchingPartner
  | partnerFound (roomId : Nat) (partnerId : Nat) (nickname : String)
      (location : Option LocationSummary)
  | newMessage (msg : Message)
  | partnerLocation (location : Option LocationSummary)
  | chatStopped
  | partnerDisconnected
  | incomingVoiceCall (callerId : Nat) (callerNickname : String)
  | voiceCallAccepted (accepterId : Nat)
  | voiceCallRejected (rejecterId : Nat)
  | voiceCallEnded
  | incomingVideoCall (callerId : Nat) (callerNickname : String)
  | videoCallAccepted (accepterId : Nat)
  | videoCallRejected (rejecterId : Nat)
  | videoCallEnded
  | webrtcOffer (offer : String) (senderId : Nat)
  | webrtcAnswer (answer : String) (senderId : Nat)
  | webrtcIceCandidate (candidate : String) (senderId : Nat)
  | partnerTypingStart
  | partnerTypingStop
deriving DecidableEq, Repr

/-- One emission: event sent to one target socket. -/
structure Emit where
  target : Nat
  event : OutEvent
deriving DecidableEq, Repr

/-- Inbound client events handled by the io.on connection handler. -/
inductive Event where
  | joinSystem (sid : Nat) (nickname : Option String) (userLocation : Option Location)
  | findPartner (sid : Nat)
  | sendMessage (sid : Nat) (text : String)
  | sendMediaMessage (sid : Nat)
      (mediaType url thumbnailUrl filename originalName mimetype : Option String)
      (size : Option Nat)
  | sendVoiceMessage (sid : Nat) (audioUrl : Option String)
      (duration size : Option Nat)
  | getPartnerLocation (sid : Nat)
  | stopChat (sid : Nat)
  | initiateVoiceCall (sid : Nat)
  | acceptVoiceCall (sid : Nat) (callerId : Nat)
  | rejectVoiceCall (sid : Nat) (callerId : Nat)
  | endVoiceCall (sid : Nat)
  | initiateVideoCall (sid : Nat)
  | acceptVideoCall (sid : Nat) (callerId : Nat)
  | rejectVideoCall (sid : Nat) (callerId : Nat)
  | endVideoCall (sid : Nat)
  | webrtcOffer (sid : Nat) (offer : String)
  | webrtcAnswer (sid : Nat) (answer : String)
  | webrtcIceCandidate (sid : Nat) (candidate : String)
  | typingStart (sid : Nat)
  | typingStop (sid : Nat)
  | disconnect (sid : Nat)
deriving DecidableEq, Repr

/-- JS `x || 'Anonymous'` on a nullable nickname: falsy covers undefined and
the empty string. -/
def orAnonymous (n : Option String) : String :=
  match n with
  | some s => if s == "" then "Anonymous" else s
  | none => "Anonymous"

/-- Handler for join-system: store the profile (socket id, nickname, the
location resolved from the client IP, join time) and acknowledge. -/
def handleJoinSystem (m : ChatManager) (sid : Nat) (nickname : Option String)
    (userLocation : Option Location) (now : Nat) : ChatManager × List Emit :=
  let userWithLocation : User :=
    { socketId := sid, nickname := nickname, location := userLocation, joinedAt := now }
  ({ m with userSockets := setEntry m.userSockets sid userWithLocation },
   [⟨sid, .joinedSystem sid userLocation⟩])

/-- Handler for find-partner: reject unregistered users and users already in
a room; otherwise match with the first eligible waiting user (creating a
room and notifying both sides) or enqueue and acknowledge the search. -/
noncomputable def handleFindPartner (m : ChatManager) (sid : Nat) (now : Nat) :
    ChatManager × List Emit :=
  match lookupUser m.userSockets sid with
  | none => (m, [⟨sid, .errorMsg "User not found in system"⟩])
  | some userInfo =>
    match m.getRoomBySocketId sid with
    | some _ => (m, [⟨sid, .errorMsg "Already in a chat room"⟩])
    | none =>
      match m.findMatch sid with
      | some (matchedUser, m1) =>
          let rm := m1.createRoom userInfo matchedUser now
          let room := rm.1
          let partnerLocationInfo : Option LocationSummary :=
            match matchedUser.location with
            | some l => some (locationSummary l room.distance)
            | none => none
          let userLocationInfo : Option LocationSummary :=
            match userInfo.location with
            | some l => some (locationSummary l room.distance)
            | none => none
          (rm.2,
           [⟨sid, .partnerFound room.id matchedUser.socketId
              (orAnonymous matchedUser.nickname) partnerLocationInfo⟩,
            ⟨matchedUser.socketId, .partnerFound room.id sid
              (orAnonymous userInfo.nickname) userLocationInfo⟩])
      | none =>
          (m.addWaitingUser userInfo now, [⟨sid, .searchingPartner⟩])

/-- Handler for send-message: construct the text Message, append it to the
sender's room log and broadcast new-message to the room. -/
def handleSendMessage (m : ChatManager) (sid : Nat) (text : String) (now : Nat) :
    ChatManager × List Emit :=
  match m.getRoomBySocketId sid with
  | none => (m, [⟨sid, .errorMsg "Not in any chat room"⟩])
  | some room =>
      let message : Message :=
        { id := m.nextId, kind := "text", content := some text, senderId := sid,
          timestamp := now, mediaType := none, thumbnailUrl := none,
          filename := none, originalName := none, mimetype := none,
          size := none, duration := none }
      (({ m with nextId := m.nextId + 1 }).addMessageToRoom room.id message now,
       [⟨room.user1.socketId, .newMessage message⟩,
        ⟨room.user2.socketId, .newMessage message⟩])

/-- Handler for send-media-message. -/
def handleSendMediaMessage (m : ChatManager) (sid : Nat)
    (mediaType url thumbnailUrl filename originalName mimetype : Option String)
    (size : Option Nat) (now : Nat) : ChatManager × List Emit :=
  match m.getRoomBySocketId sid with
  | none => (m, [⟨sid, .errorMsg "Not in any chat room"⟩])
  | some room =>
      let message : Message :=
        { id := m.nextId, kind := "media", content := url, senderId := sid,
          timestamp := now, mediaType := mediaType, thumbnailUrl := thumbnailUrl,
          filename := filename, originalName := originalName, mimetype := mimetype,
          size := size, duration := none }
      (({ m with nextId := m.nextId + 1 }).addMessageToRoom room.id message now,
       [⟨room.user1.socketId, .newMessage message⟩,
        ⟨room.user2.socketId, .newMessage message⟩])

/-- Handler for send-voice-message: duration defaults to 0 when falsy. -/
def handleSendVoiceMessage (m : ChatManager) (sid : Nat) (audioUrl : Option String)
    (duration size : Option Nat) (now : Nat) : ChatManager × List Emit :=
  match m.getRoomBySocketId sid with
  | none => (m, [⟨sid, .errorMsg "Not in any chat room"⟩])
  | some room =>
      let message : Message :=
        { id := m.nextId, kind := "voice", content := audioUrl, senderId := sid,
          timestamp := now, mediaType := none, thumbnailUrl := none,
          filename := none, originalName := none, mimetype := none,
          size := size, duration := some (duration.getD 0) }
      (({ m with nextId := m.nextId + 1 }).addMessageToRoom room.id message now,
       [⟨room.user1.socketId, .newMessage message⟩,
        ⟨room.user2.socketId, .newMessage message⟩])

/-- Handler for get-partner-location. -/
def handleGetPartnerLocation (m : ChatManager) (sid : Nat) :
    ChatManager × List Emit :=
  match m.getRoomBySocketId sid with
  | none => (m, [⟨sid, .errorMsg "Not in any chat room"⟩])
  | some room =>
      match m.getPartnerInfo room.id sid with
      | some partnerInfo =>
          match partnerInfo.location with
          | some l =>
              (m, [⟨sid, .partnerLocation (some (locationSummary l room.distance))⟩])
          | none => (m, [⟨sid, .partnerLocation none⟩])
      | none => (m, [⟨sid, .partnerLocation none⟩])

/-- Handler for stop-chat: drop any waiting entry, tear down the room (if
any) notifying the partner, and always acknowledge with chat-stopped. -/
def handleStopChat (m : ChatManager) (sid : Nat) : ChatManager × List Emit :=
  let m1 := m.removeWaitingUser sid
  match m1.getRoomBySocketId sid with
  | some room =>
      let partnerEmits : List Emit :=
        match m1.getPartnerSocketId room.id sid with
        | some pid => [⟨pid, .partnerDisconnected⟩]
        | none => []
      (m1.removeRoom room.id, partnerEmits ++ [⟨sid, .chatStopped⟩])
  | none => (m1, [⟨sid, .chatStopped⟩])

/-- Handler for initiate-voice-call. -/
def handleInitiateVoiceCall (m : ChatManager) (sid : Nat) :
    ChatManager × List Emit :=
  match m.getRoomBySocketId sid with
  | none => (m, [⟨sid, .errorMsg "Not in any chat room"⟩])
  | some room =>
      match m.getPartnerSocketId room.id sid with
      | some pid =>
          (m, [⟨pid, .incomingVoiceCall sid
            (orAnonymous ((lookupUser m.userSockets sid).bind User.nickname))⟩])
      | none => (m, [])

/-- Handler for accept-voice-call: no room or membership check in the source;
forwards straight to the supplied caller id. -/
def handleAcceptVoiceCall (m : ChatManager) (sid callerId : Nat) :
    ChatManager × List Emit :=
  (m, [⟨callerId, .voiceCallAccepted sid⟩])

/-- Handler for reject-voice-call: no room check, forwards to the caller id. -/
def handleRejectVoiceCall (m : ChatManager) (sid callerId : Nat) :
    ChatManager × List Emit :=
  (m, [⟨callerId, .voiceCallRejected sid⟩])

/-- Handler for end-voice-call: silent when the sender has no room. -/
def handleEndVoiceCall (m : ChatManager) (sid : Nat) : ChatManager × List Emit :=
  match m.getRoomBySocketId sid with
  | some room =>
      match m.getPartnerSocketId room.id sid with
      | some pid => (m, [⟨pid, .voiceCallEnded⟩])
      | none => (m, [])
  | none => (m, [])

/-- Handler for initiate-video-call. -/
def handleInitiateVideoCall (m : ChatManager) (sid : Nat) :
    ChatManager × List Emit :=
  match m.getRoomBySocketId sid with
  | none => (m, [⟨sid, .errorMsg "Not in any chat room"⟩])
  | some room =>
      match m.getPartnerSocketId room.id sid with
      | some pid =>
          (m, [⟨pid, .incomingVideoCall sid
            (orAnonymous ((lookupUser m.userSockets sid).bind User.nickname))⟩])
      | none => (m, [])

/-- Handler for accept-video-call: no room check, forwards to the caller id. -/
def handleAcceptVideoCall (m : ChatManager) (sid callerId : Nat) :
    ChatManager × List Emit :=
  (m, [⟨callerId, .videoCallAccepted sid⟩])

/-- Handler for reject-video-call: no room check, forwards to the caller id. -/
def handleRejectVideoCall (m : ChatManager) (sid callerId : Nat) :
    ChatManager × List Emit :=
  (m, [⟨callerId, .videoCallRejected sid⟩])

/-- Handler for end-video-call: silent when the sender has no room. -/
def handleEndVideoCall (m : ChatManager) (sid : Nat) : ChatManager × List Emit :=
  match m.getRoomBySocketId sid with
  | some room =>
      match m.getPartnerSocketId room.id sid with
      | some pid => (m, [⟨pid, .videoCallEnded⟩])
      | none => (m, [])
  | none => (m, [])

/-- Handler for webrtc-offer: forward the opaque payload to the partner;
silent when the sender has no room. -/
def handleWebrtcOffer (m : ChatManager) (sid : Nat) (offer : String) :
    ChatManager × List Emit :=
  match m.getRoomBySocketId sid with
  | some room =>
      match m.getPartnerSocketId room.id sid with
      | some pid => (m, [⟨pid, .webrtcOffer offer sid⟩])
      | none => (m, [])
  | none => (m, [])

/-- Handler for webrtc-answer. -/
def handleWebrtcAnswer (m : ChatManager) (sid : Nat) (answer : String) :
    ChatManager × List Emit :=
  match m.getRoomBySocketId sid with
  | some room =>
      match m.getPartnerSocketId room.id sid with
      | some pid => (m, [⟨pid, .webrtcAnswer answer sid⟩])
      | none => (m, [])
  | none => (m, [])

/-- Handler for webrtc-ice-candidate. -/
def handleWebrtcIceCandidate (m : ChatManager) (sid : Nat) (candidate : String) :
    ChatManager × List Emit :=
  match m.getRoomBySocketId sid with
  | some room =>
      match m.getPartnerSocketId room.id sid with
      | some pid => (m, [⟨pid, .webrtcIceCandidate candidate sid⟩])
      | none => (m, [])
  | none => (m, [])

/-- Handler for typing-start. -/
def handleTypingStart (m : ChatManager) (sid : Nat) : ChatManager × List Emit :=
  match m.getRoomBySocketId sid with
  | some room =>
      match m.getPartnerSocketId room.id sid with
      | some pid => (m, [⟨pid, .partnerTypingStart⟩])
      | none => (m, [])
  | none => (m, [])

/-- Handler for typing-stop. -/
def handleTypingStop (m : ChatManager) (sid : Nat) : ChatManager × List Emit :=
  match m.getRoomBySocketId sid with
  | some room =>
      match m.getPartnerSocketId room.id sid with
      | some pid => (m, [⟨pid, .partnerTypingStop⟩])
      | none => (m, [])
  | none => (m, [])

/-- Handler for disconnect: drop the waiting entry and the registry profile,
then tear down the room (if any) notifying the partner. -/
def handleDisconnect (m : ChatManager) (sid : Nat) : ChatManager × List Emit :=
  let m1 := m.removeWaitingUser sid
  let m2 := { m1 with userSockets := deleteEntry m1.userSockets sid }
  match m2.getRoomBySocketId sid with
  | some room =>
      let emits : List Emit :=
        match m2.getPartnerSocketId room.id sid with
        | some pid => [⟨pid, .partnerDisconnected⟩]
        | none => []
      (m2.removeRoom room.id, emits)
  | none => (m2, [])

/-- Dispatch one inbound event to its handler. -/
noncomputable def handleEvent (m : ChatManager) (e : Event) (now : Nat) :
    ChatManager × List Emit :=
  match e with
  | .joinSystem sid nickname userLocation => handleJoinSystem m sid nickname userLocation now
  | .findPartner sid => handleFindPartner m sid now
  | .sendMessage sid text => handleSendMessage m sid text now
  | .sendMediaMessage sid mediaType url thumbnailUrl filename originalName mimetype size =>
      handleSendMediaMessage m sid mediaType url thumbnailUrl filename originalName mimetype size now
  | .sendVoiceMessage sid audioUrl duration size =>
      handleSendVoiceMessage m sid audioUrl duration size now
  | .getPartnerLocation sid => handleGetPartnerLocation m sid
  | .stopChat sid => handleStopChat m sid
  | .initiateVoiceCall sid => handleInitiateVoiceCall m sid
  | .acceptVoiceCall sid callerId => handleAcceptVoiceCall m sid callerId
  | .rejectVoiceCall sid callerId => handleRejectVoiceCall m sid callerId
  | .endVoiceCall sid => handleEndVoiceCall m sid
  | .initiateVideoCall sid => handleInitiateVideoCall m sid
  | .acceptVideoCall sid callerId => handleAcceptVideoCall m sid callerId
  | .rejectVideoCall sid callerId => handleRejectVideoCall m sid callerId
  | .endVideoCall sid => handleEndVideoCall m sid
  | .webrtcOffer sid offer => handleWebrtcOffer m sid offer
  | .webrtcAnswer sid answer => handleWebrtcAnswer m sid answer
  | .webrtcIceCandidate sid candidate => handleWebrtcIceCandidate m sid candidate
  | .typingStart sid => handleTypingStart m sid
  | .typingStop sid => handleTypingStop m sid
  | .disconnect sid => handleDisconnect m sid

/-- Run a sequence of events against the state, advancing the clock one tick
per event. -/
noncomputable def run (m : ChatManager) (evs : List Event) (now : Nat) : ChatManager :=
  match evs with
  | [] => m
  | e :: rest => run (handleEvent m e now).1 rest (now + 1)

/-- Membership of a socket id in a room. -/
def memberOf (sid : Nat) (r : Room) : Prop :=
  r.user1.socketId = sid ∨ r.user2.socketId = sid

instance (sid : Nat) (r : Room) : Decidable (memberOf sid r) := by
  unfold memberOf; infer_instance

lemma getRoomBySocketId_eq_none_iff (m : ChatManager) (sid : Nat) :
    m.getRoomBySocketId sid = none ↔ ∀ r ∈ m.activeRooms, ¬ memberOf sid r := by
  simp [ChatManager.getRoomBySocketId, List.find?_eq_none, memberOf]

lemma getRoomBySocketId_eq_some {m : ChatManager} {sid : Nat} {r : Room}
    (h : m.getRoomBySocketId sid = some r) : r ∈ m.activeRooms ∧ memberOf sid r := by
  refine ⟨List.mem_of_find?_eq_some h, ?_⟩
  have h2 := List.find?_some h
  simpa [memberOf] using h2

lemma findMatch_eq_some {m : ChatManager} {sid : Nat} {mu : User} {m1 : ChatManager}
    (h : m.findMatch sid = some (mu, m1)) :
    mu ∈ m.waitingUsers ∧ mu.socketId ≠ sid ∧
      m1 = (m.removeWaitingUser sid).removeWaitingUser mu.socketId := by
  unfold ChatManager.findMatch at h
  cases hf : m.waitingUsers.filter (fun u => u.socketId != sid) with
  | nil => rw [hf] at h; simp at h
  | cons a l =>
      rw [hf] at h
      simp only [Option.some.injEq, Prod.mk.injEq] at h
      obtain ⟨rfl, rfl⟩ := h
      have ha : a ∈ m.waitingUsers.filter (fun u => u.socketId != sid) := by
        rw [hf]; exact List.mem_cons_self a l
      rw [List.mem_filter] at ha
      exact ⟨ha.1, by simpa using ha.2, rfl⟩

/-- State invariant: every room has two distinct members, rooms have
pairwise distinct ids and disjoint member sets, waiting users belong to no
room, room ids are below the fresh-id counter, and each registry entry's
stored socket id matches its key. -/
def StateInv (m : ChatManager) : Prop :=
  (∀ r ∈ m.activeRooms, r.user1.socketId ≠ r.user2.socketId) ∧
  m.activeRooms.Pairwise (fun r1 r2 =>
    r1.id ≠ r2.id ∧ ∀ sid, memberOf sid r1 → ¬ memberOf sid r2) ∧
  (∀ u ∈ m.waitingUsers, ∀ r ∈ m.activeRooms, ¬ memberOf u.socketId r) ∧
  (∀ r ∈ m.activeRooms, r.id < m.nextId) ∧
  (∀ p ∈ m.userSockets, p.2.socketId = p.1)

lemma stateInv_init : StateInv initManager := by
  simp [StateInv, initManager]

lemma lookupUser_socketId {l : List (Nat × User)} {k : Nat} {u : User}
    (hreg : ∀ p ∈ l, p.2.socketId = p.1) (h : lookupUser l k = some u) :
    u.socketId = k := by
  unfold lookupUser at h
  cases hf : l.find? (fun p => p.1 == k) with
  | none => simp [hf] at h
  | some p =>
      simp only [hf] at h
      have hp := List.find?_some hf
      have hm := List.mem_of_find?_eq_some hf
      simp only [beq_iff_eq] at hp
      have h2 : p.2 = u := by simpa using h
      rw [← h2, hreg p hm, hp]

lemma mem_setEntry {l : List (Nat × User)} {k : Nat} {v : User} {p : Nat × User}
    (h : p ∈ setEntry l k v) : p = (k, v) ∨ p ∈ l := by
  unfold setEntry at h
  split at h
  · rw [List.mem_map] at h
    obtain ⟨q, hq, hqp⟩ := h
    by_cases hk : (q.1 == k) = true
    · rw [if_pos hk] at hqp; exact Or.inl hqp.symm
    · rw [if_neg hk] at hqp; exact Or.inr (hqp ▸ hq)
  · rcases List.mem_append.mp h with h1 | h1
    · exact Or.inr h1
    · exact Or.inl (List.mem_singleton.mp h1)

lemma stateInv_handleJoinSystem (m : ChatManager) (sid : Nat) (nickname : Option String)
    (loc : Option Location) (now : Nat) (h : StateInv m) :
    StateInv (handleJoinSystem m sid nickname loc now).1 := by
  obtain ⟨h1, h2, h3, h4, h5⟩ := h
  refine ⟨h1, h2, h3, h4, ?_⟩
  intro p hp
  have hp' : p ∈ setEntry m.userSockets sid
      { socketId := sid, nickname := nickname, location := loc, joinedAt := now } := hp
  rcases mem_setEntry hp' with rfl | hmem
  · rfl
  · exact h5 p hmem

lemma stateInv_after_match {m : ChatManager} {sid : Nat} {userInfo mu : User} {now : Nat}
    (h : StateInv m)
    (hsidU : userInfo.socketId = sid)
    (hnoroom : ∀ r ∈ m.activeRooms, ¬ memberOf sid r)
    (hmu_mem : mu ∈ m.waitingUsers) (hmu_ne : mu.socketId ≠ sid) :
    StateInv (((m.removeWaitingUser sid).removeWaitingUser mu.socketId).createRoom
      userInfo mu now).2 := by
  obtain ⟨h1, h2, h3, h4, h5⟩ := h
  set m1 := (m.removeWaitingUser sid).removeWaitingUser mu.socketId with hm1
  set room := (m1.createRoom userInfo mu now).1 with hroomdef
  have hcr : (m1.createRoom userInfo mu now).2 =
      { m1 with activeRooms := m1.activeRooms ++ [room], nextId := m1.nextId + 1 } := rfl
  have hru1 : room.user1 = userInfo := rfl
  have hru2 : room.user2 = mu := rfl
  have hrid : room.id = m1.nextId := rfl
  have hm1w : m1.waitingUsers = (m.waitingUsers.filter (fun u => u.socketId != sid)).filter
      (fun u => u.socketId != mu.socketId) := rfl
  have hm1r : m1.activeRooms = m.activeRooms := rfl
  have hm1n : m1.nextId = m.nextId := rfl
  have hm1u : m1.userSockets = m.userSockets := rfl
  have hmemroom : ∀ s, memberOf s room ↔ (s = sid ∨ s = mu.socketId) := by
    intro s
    rw [memberOf, hru1, hru2, hsidU]
    constructor
    · rintro (h' | h') <;> simp [h']
    · rintro (h' | h') <;> simp [h']
  rw [hcr]
  refine ⟨?_, ?_, ?_, ?_, ?_⟩
  · intro r hr
    rcases List.mem_append.mp hr with hr' | hr'
    · exact h1 r (hm1r ▸ hr')
    · have : r = room := List.mem_singleton.mp hr'
      subst this
      rw [hru1, hru2, hsidU]
      exact fun he => hmu_ne he.symm
  · rw [List.pairwise_append]
    refine ⟨hm1r ▸ h2, List.pairwise_singleton _ _, ?_⟩
    intro r1 hr1 r2 hr2
    have hr2' : r2 = room := List.mem_singleton.mp hr2
    subst hr2'
    have hr1' : r1 ∈ m.activeRooms := hm1r ▸ hr1
    constructor
    · rw [hrid, hm1n]
      exact Nat.ne_of_lt (h4 r1 hr1')
    · intro s hs1 hs2
      rcases (hmemroom s).mp hs2 with rfl | rfl
      · exact hnoroom r1 hr1' hs1
      · exact h3 mu hmu_mem r1 hr1' hs1
  · intro u hu r hr
    have hu' : u ∈ m1.waitingUsers := hu
    rw [hm1w, List.mem_filter, List.mem_filter] at hu'
    obtain ⟨⟨humem, hune_sid⟩, hune_mu⟩ := hu'
    simp only [bne_iff_ne, ne_eq] at hune_sid hune_mu
    rcases List.mem_append.mp hr with hr' | hr'
    · exact h3 u humem r (hm1r ▸ hr')
    · have : r = room := List.mem_singleton.mp hr'
      subst this
      intro hmem
      rcases (hmemroom u.socketId).mp hmem with h' | h'
      · exact hune_sid h'
      · exact hune_mu h'
  · intro r hr
    show r.id < m1.nextId + 1
    rcases List.mem_append.mp hr with hr' | hr'
    · have := h4 r (hm1r ▸ hr')
      rw [hm1n]
      omega
    · have : r = room := List.mem_singleton.mp hr'
      subst this
      rw [hrid]
      omega
  · intro p hp
    exact h5 p (hm1u ▸ hp)

lemma stateInv_handleFindPartner (m : ChatManager) (sid now : Nat) (h : StateInv m) :
    StateInv (handleFindPartner m sid now).1 := by
  unfold handleFindPartner
  cases hl : lookupUser m.userSockets sid with
  | none => exact h
  | some userInfo =>
    cases hr : m.getRoomBySocketId sid with
    | some r => exact h
    | none =>
      have hsidU : userInfo.socketId = sid := lookupUser_socketId h.2.2.2.2 hl
      have hnoroom : ∀ r ∈ m.activeRooms, ¬ memberOf sid r :=
        (getRoomBySocketId_eq_none_iff m sid).mp hr
      cases hm : m.findMatch sid with
      | none =>
          obtain ⟨h1, h2, h3, h4, h5⟩ := h
          refine ⟨h1, h2, ?_, h4, h5⟩
          intro u hu r hrm
          have hu' : u ∈ m.waitingUsers ++ [{ userInfo with joinedAt := now }] := hu
          rcases List.mem_append.mp hu' with hmem | hmem
          · exact h3 u hmem r hrm
          · have : u = { userInfo with joinedAt := now } := List.mem_singleton.mp hmem
            subst this
            have : ({ userInfo with joinedAt := now } : User).socketId = sid := hsidU
            rw [this]
            exact hnoroom r hrm
      | some pair =>
          obtain ⟨mu, m1⟩ := pair
          obtain ⟨hmu_mem, hmu_ne, hm1⟩ := findMatch_eq_some hm
          subst hm1
          exact stateInv_after_match ⟨h.1, h.2.1, h.2.2.1, h.2.2.2.1, h.2.2.2.2⟩
            hsidU hnoroom hmu_mem hmu_ne

/-- Projection telling whether an event is a join-system or find-partner. -/
def Event.isJoinOrFind : Event → Bool
  | .joinSystem _ _ _ => true
  | .findPartner _ => true
  | _ => false

lemma stateInv_run (evs : List Event) (m : ChatManager) (now : Nat)
    (h : StateInv m) (hk : ∀ e ∈ evs, e.isJoinOrFind = true) :
    StateInv (run m evs now) := by
  induction evs generalizing m now with
  | nil => exact h
  | cons e rest ih =>
      have he := hk e (List.mem_cons_self e rest)
      have hrest : ∀ e' ∈ rest, e'.isJoinOrFind = true :=
        fun e' h' => hk e' (List.mem_cons_of_mem e h')
      cases e with
      | joinSystem sid nickname loc =>
          exact ih _ _ (stateInv_handleJoinSystem m sid nickname loc now h) hrest
      | findPartner sid =>
          exact ih _ _ (stateInv_handleFindPartner m sid now h) hrest
      | _ => simp [Event.isJoinOrFind] at he

/-- Concrete users and rooms used by witnesses. -/
def uAlice : User := { socketId := 1, nickname := some "alice", location := none, joinedAt := 0 }

def uBob : User := { socketId := 2, nickname := none, location := none, joinedAt := 0 }

def roomAB : Room :=
  { id := 0, user1 := uAlice, user2 := uBob, createdAt := 0, messages := [], distance := none }

def mgrAB : ChatManager :=
  { waitingUsers := [], activeRooms := [roomAB], userSockets := [(1, uAlice), (2, uBob)],
    nextId := 1 }

/-- C1: over any sequence of join-system/find-partner events from the initial
state, every active room has two distinct members and no two active rooms
share a member (hence no connection id is in two rooms at once); moreover a
find-partner from a registered connection already in a room is answered with
an error event and leaves the state unchanged. -/
theorem c1_room_membership_invariants :
    (∀ (evs : List Event) (now : Nat), (∀ e ∈ evs, e.isJoinOrFind = true) →
      (∀ r ∈ (run initManager evs now).activeRooms,
          r.user1.socketId ≠ r.user2.socketId) ∧
      (run initManager evs now).activeRooms.Pairwise (fun r1 r2 =>
          ∀ sid, memberOf sid r1 → ¬ memberOf sid r2)) ∧
    (∀ (m : ChatManager) (sid now : Nat) (u : User) (r : Room),
      lookupUser m.userSockets sid = some u →
      m.getRoomBySocketId sid = some r →
      handleFindPartner m sid now = (m, [⟨sid, .errorMsg "Already in a chat room"⟩])) := by
  constructor
  · intro evs now hk
    have h := stateInv_run evs initManager now stateInv_init hk
    exact ⟨h.1, h.2.1.imp (fun hp => hp.2)⟩
  · intro m sid now u r hl hr
    unfold handleFindPartner
    rw [hl, hr]

/-- Witness for c1_room_membership_invariants: a four-event trace pairing
connections 1 and 2, and a concrete in-room find-partner rejection. -/
theorem c1_room_membership_invariants_witness :
    ((∀ r ∈ (run initManager [Event.joinSystem 1 (some "alice") none,
        Event.joinSystem 2 none none, Event.findPartner 1, Event.findPartner 2]
        0).activeRooms, r.user1.socketId ≠ r.user2.socketId) ∧
      (run initManager [Event.joinSystem 1 (some "alice") none,
        Event.joinSystem 2 none none, Event.findPartner 1, Event.findPartner 2]
        0).activeRooms.Pairwise (fun r1 r2 =>
          ∀ sid, memberOf sid r1 → ¬ memberOf sid r2)) ∧
    handleFindPartner mgrAB 1 5 = (mgrAB, [⟨1, .errorMsg "Already in a chat room"⟩]) :=
  ⟨c1_room_membership_invariants.1 _ 0 (by decide),
   c1_room_membership_invariants.2 mgrAB 1 5 uAlice roomAB (by decide) (by decide)⟩

lemma find?_eq_of_filter_eq_cons {α : Type} {p : α → Bool} {l t : List α} {a : α}
    (h : l.filter p = a :: t) : l.find? p = some a := by
  induction l generalizing t with
  | nil => simp at h
  | cons x xs ih =>
      by_cases hx : p x
      · rw [List.filter_cons_of_pos hx] at h
        rw [List.find?_cons_of_pos _ hx]
        simp only [List.cons.injEq] at h
        exact congrArg some h.1
      · rw [List.filter_cons_of_neg hx] at h
        rw [List.find?_cons_of_neg _ hx]
        exact ih h

/-- C8: findMatch returns none exactly when every waiting entry carries the
requester's id; on success it returns the earliest-enqueued entry whose id
differs from the requester (the first such entry in queue order), never the
requester itself, and that entry no longer occurs in the resulting queue,
which is a sub-sequence of the original. -/
theorem c8_findMatch_fifo_excluding (m : ChatManager) (sid : Nat) :
    (m.findMatch sid = none ↔ ∀ u ∈ m.waitingUsers, u.socketId = sid) ∧
    (∀ mu m1, m.findMatch sid = some (mu, m1) →
      mu.socketId ≠ sid ∧
      m.waitingUsers.find? (fun u => u.socketId != sid) = some mu ∧
      (∀ u ∈ m1.waitingUsers, u.socketId ≠ mu.socketId) ∧
      m1.waitingUsers.Sublist m.waitingUsers) := by
  constructor
  · constructor
    · intro h
      unfold ChatManager.findMatch at h
      cases hf : m.waitingUsers.filter (fun u => u.socketId != sid) with
      | nil =>
          intro u hu
          have := List.filter_eq_nil_iff.mp hf u hu
          simpa using this
      | cons a t => rw [hf] at h; simp at h
    · intro h
      have hf : m.waitingUsers.filter (fun u => u.socketId != sid) = [] :=
        List.filter_eq_nil_iff.mpr (fun u hu => by simpa using h u hu)
      unfold ChatManager.findMatch
      rw [hf]
  · intro mu m1 hm
    obtain ⟨hmem, hne, hm1⟩ := findMatch_eq_some hm
    refine ⟨hne, ?_, ?_, ?_⟩
    · unfold ChatManager.findMatch at hm
      cases hf : m.waitingUsers.filter (fun u => u.socketId != sid) with
      | nil => rw [hf] at hm; simp at hm
      | cons a t =>
          rw [hf] at hm
          simp only [Option.some.injEq, Prod.mk.injEq] at hm
          obtain ⟨rfl, -⟩ := hm
          exact find?_eq_of_filter_eq_cons hf
    · subst hm1
      intro u hu
      have hu' : u ∈ (m.waitingUsers.filter (fun v => v.socketId != sid)).filter
          (fun v => v.socketId != mu.socketId) := hu
      have := (List.mem_filter.mp hu').2
      simpa using this
    · subst hm1
      exact (List.filter_sublist _).trans (List.filter_sublist _)

/-- Witness for c8_findMatch_fifo_excluding at a two-entry queue: requester 2
skips its own entry and matches the earliest other entry. -/
theorem c8_findMatch_fifo_excluding_witness :
    ((⟨[uBob, uAlice], [], [], 0⟩ : ChatManager).findMatch 2 = none ↔
      ∀ u ∈ ([uBob, uAlice] : List User), u.socketId = 2) ∧
    (uAlice.socketId ≠ 2 ∧
      ([uBob, uAlice] : List User).find? (fun u => u.socketId != 2) = some uAlice ∧
      (∀ u ∈ (((⟨[uBob, uAlice], [], [], 0⟩ : ChatManager).removeWaitingUser
          2).removeWaitingUser 1).waitingUsers, u.socketId ≠ uAlice.socketId) ∧
      (((⟨[uBob, uAlice], [], [], 0⟩ : ChatManager).removeWaitingUser
          2).removeWaitingUser 1).waitingUsers.Sublist [uBob, uAlice]) :=
  ⟨(c8_findMatch_fifo_excluding ⟨[uBob, uAlice], [], [], 0⟩ 2).1,
   (c8_findMatch_fifo_excluding ⟨[uBob, uAlice], [], [], 0⟩ 2).2 uAlice
     (((⟨[uBob, uAlice], [], [], 0⟩ : ChatManager).removeWaitingUser
       2).removeWaitingUser uAlice.socketId) (by decide)⟩

/-- C9: removeWaitingUser deletes every queue entry bearing the given id
(even duplicated ones), keeps every other entry, yields a sub-sequence of
the original queue, and is the identity when no entry bears the id. -/
theorem c9_removeWaitingUser_removes_all (m : ChatManager) (sid : Nat) :
    (∀ u ∈ (m.removeWaitingUser sid).waitingUsers, u.socketId ≠ sid) ∧
    (m.removeWaitingUser sid).waitingUsers.Sublist m.waitingUsers ∧
    (∀ u ∈ m.waitingUsers, u.socketId ≠ sid →
      u ∈ (m.removeWaitingUser sid).waitingUsers) ∧
    ((∀ u ∈ m.waitingUsers, u.socketId ≠ sid) → m.removeWaitingUser sid = m) := by
  refine ⟨?_, ?_, ?_, ?_⟩
  · intro u hu
    have hu' : u ∈ m.waitingUsers.filter (fun v => v.socketId != sid) := hu
    have := (List.mem_filter.mp hu').2
    simpa using this
  · exact List.filter_sublist _
  · intro u hu hne
    exact List.mem_filter.mpr ⟨hu, by simpa using hne⟩
  · intro h
    have hf : m.waitingUsers.filter (fun v => v.socketId != sid) = m.waitingUsers :=
      List.filter_eq_self.mpr (fun u hu => by simpa using h u hu)
    unfold ChatManager.removeWaitingUser
    rw [hf]

/-- Witness for c9_removeWaitingUser_removes_all on a queue holding two
duplicate entries for id 1 around one entry for id 2: both are deleted. -/
theorem c9_removeWaitingUser_removes_all_witness :
    (∀ u ∈ ((⟨[uAlice, uBob, uAlice], [], [], 0⟩ : ChatManager).removeWaitingUser
        1).waitingUsers, u.socketId ≠ 1) ∧
    (∀ u ∈ ([uAlice, uBob, uAlice] : List User), u.socketId ≠ 2 →
      u ∈ ((⟨[uAlice, uBob, uAlice], [], [], 0⟩ : ChatManager).removeWaitingUser
        2).waitingUsers) ∧
    (⟨[uAlice, uAlice], [], [], 0⟩ : ChatManager).removeWaitingUser 2 =
      ⟨[uAlice, uAlice], [], [], 0⟩ :=
  ⟨(c9_removeWaitingUser_removes_all ⟨[uAlice, uBob, uAlice], [], [], 0⟩ 1).1,
   (c9_removeWaitingUser_removes_all ⟨[uAlice, uBob, uAlice], [], [], 0⟩ 2).2.2.1,
   (c9_removeWaitingUser_removes_all ⟨[uAlice, uAlice], [], [], 0⟩ 2).2.2.2 (by decide)⟩

/-- C2: when the queue holds exactly one entry A and a registered connection
B outside any room sends find-partner, one room with members B (user1) and A
(user2) is appended, the queue is emptied, and both sides receive
partner-found carrying the other party's nickname (defaulting to Anonymous),
location summary and the room's distance. -/
theorem c2_waiting_pair_matched (m : ChatManager) (a uB : User) (b now : Nat)
    (hq : m.waitingUsers = [a])
    (hne : a.socketId ≠ b)
    (hreg : lookupUser m.userSockets b = some uB)
    (hnr : m.getRoomBySocketId b = none) :
    ∃ room : Room,
      room.user1 = uB ∧ room.user2 = a ∧
      (handleFindPartner m b now).1.activeRooms = m.activeRooms ++ [room] ∧
      (handleFindPartner m b now).1.waitingUsers = [] ∧
      (handleFindPartner m b now).2 =
        [⟨b, .partnerFound room.id a.socketId (orAnonymous a.nickname)
            (a.location.map (fun l => locationSummary l room.distance))⟩,
         ⟨a.socketId, .partnerFound room.id b (orAnonymous uB.nickname)
            (uB.location.map (fun l => locationSummary l room.distance))⟩] := by
  have hfm : m.findMatch b =
      some (a, (m.removeWaitingUser b).removeWaitingUser a.socketId) := by
    unfold ChatManager.findMatch
    rw [hq]
    simp [hne]
  refine ⟨(((m.removeWaitingUser b).removeWaitingUser a.socketId).createRoom
    uB a now).1, rfl, rfl, ?_, ?_, ?_⟩
  · simp only [handleFindPartner, hreg, hnr, hfm]
    rfl
  · simp only [handleFindPartner, hreg, hnr, hfm]
    show ((((m.removeWaitingUser b).removeWaitingUser a.socketId).createRoom
      uB a now).2).waitingUsers = []
    have : (((m.removeWaitingUser b).removeWaitingUser a.socketId).createRoom
        uB a now).2.waitingUsers =
        ((m.removeWaitingUser b).removeWaitingUser a.socketId).waitingUsers := rfl
    rw [this]
    show ((m.waitingUsers.filter (fun u => u.socketId != b)).filter
      (fun u => u.socketId != a.socketId)) = []
    rw [hq]
    simp [hne]
  · simp only [handleFindPartner, hreg, hnr, hfm]
    cases ha : a.location <;> cases hb : uB.location <;>
      simp [ha, hb, Option.map]

/-- Witness for c2_waiting_pair_matched: Alice (id 1) waits; registered Bob
(id 2) finds her. -/
theorem c2_waiting_pair_matched_witness :
    ∃ room : Room,
      room.user1 = uBob ∧ room.user2 = uAlice ∧
      (handleFindPartner ⟨[uAlice], [], [(2, uBob)], 0⟩ 2 9).1.activeRooms =
        ([] : List Room) ++ [room] ∧
      (handleFindPartner ⟨[uAlice], [], [(2, uBob)], 0⟩ 2 9).1.waitingUsers = [] ∧
      (handleFindPartner ⟨[uAlice], [], [(2, uBob)], 0⟩ 2 9).2 =
        [⟨2, .partnerFound room.id uAlice.socketId (orAnonymous uAlice.nickname)
            (uAlice.location.map (fun l => locationSummary l room.distance))⟩,
         ⟨uAlice.socketId, .partnerFound room.id 2 (orAnonymous uBob.nickname)
            (uBob.location.map (fun l => locationSummary l room.distance))⟩] :=
  c2_waiting_pair_matched ⟨[uAlice], [], [(2, uBob)], 0⟩ uAlice uBob 2 9
    (by decide) (by decide) (by decide) (by decide)

/-- Counterexample to C3: after join-system and one find-partner, a second
find-partner from the same (still waiting) connection is answered with
searching-partner — not with an error — and the queue then holds two
entries for that connection id. -/
theorem c3_counterexample_double_enqueue :
    (handleEvent (handleEvent (handleEvent initManager
        (.joinSystem 1 (some "alice") none) 0).1 (.findPartner 1) 1).1
        (.findPartner 1) 2).2 = [⟨1, .searchingPartner⟩] ∧
    ((handleEvent (handleEvent (handleEvent initManager
        (.joinSystem 1 (some "alice") none) 0).1 (.findPartner 1) 1).1
        (.findPartner 1) 2).1.waitingUsers.filter
      (fun u => u.socketId == 1)).length = 2 := by
  decide

/-- C3 as amended: a registered connection A finding a partner on an empty
queue is enqueued once and told searching-partner; a second find-partner
from A before matching is answered with searching-partner again and
enqueues A a second time, so the queue then holds exactly two entries for
A's id. -/
theorem c3_amended_requeue_on_second_find (m : ChatManager) (uA : User)
    (aSid now now2 : Nat)
    (hreg : lookupUser m.userSockets aSid = some uA)
    (hid : uA.socketId = aSid)
    (hq : m.waitingUsers = [])
    (hnr : m.getRoomBySocketId aSid = none) :
    (handleFindPartner m aSid now).2 = [⟨aSid, .searchingPartner⟩] ∧
    ((handleFindPartner m aSid now).1.waitingUsers.filter
      (fun u => u.socketId == aSid)).length = 1 ∧
    (handleFindPartner (handleFindPartner m aSid now).1 aSid now2).2 =
      [⟨aSid, .searchingPartner⟩] ∧
    ((handleFindPartner (handleFindPartner m aSid now).1 aSid
      now2).1.waitingUsers.filter (fun u => u.socketId == aSid)).length = 2 := by
  have hfm : m.findMatch aSid = none := by
    unfold ChatManager.findMatch
    rw [hq]
    rfl
  have h1 : handleFindPartner m aSid now =
      (m.addWaitingUser uA now, [⟨aSid, .searchingPartner⟩]) := by
    simp only [handleFindPartner, hreg, hnr, hfm]
  rw [h1]
  have hq1 : (m.addWaitingUser uA now).waitingUsers = [{ uA with joinedAt := now }] := by
    show m.waitingUsers ++ [{ uA with joinedAt := now }] = _
    rw [hq]
    rfl
  refine ⟨rfl, ?_, ?_, ?_⟩
  · rw [hq1]
    simp [hid]
  · have hreg1 : lookupUser (m.addWaitingUser uA now).userSockets aSid = some uA := hreg
    have hnr1 : (m.addWaitingUser uA now).getRoomBySocketId aSid = none := hnr
    have hfm1 : (m.addWaitingUser uA now).findMatch aSid = none := by
      unfold ChatManager.findMatch
      rw [hq1]
      simp [hid]
    simp only [handleFindPartner, hreg1, hnr1, hfm1]
  · have hreg1 : lookupUser (m.addWaitingUser uA now).userSockets aSid = some uA := hreg
    have hnr1 : (m.addWaitingUser uA now).getRoomBySocketId aSid = none := hnr
    have hfm1 : (m.addWaitingUser uA now).findMatch aSid = none := by
      unfold ChatManager.findMatch
      rw [hq1]
      simp [hid]
    simp only [handleFindPartner, hreg1, hnr1, hfm1]
    show (((m.addWaitingUser uA now).addWaitingUser uA now2).waitingUsers.filter
      (fun u => u.socketId == aSid)).length = 2
    have hq2 : ((m.addWaitingUser uA now).addWaitingUser uA now2).waitingUsers =
        [{ uA with joinedAt := now }, { uA with joinedAt := now2 }] := by
      show (m.addWaitingUser uA now).waitingUsers ++ [{ uA with joinedAt := now2 }] = _
      rw [hq1]
      rfl
    rw [hq2]
    simp [hid]

/-- Witness for c3_amended_requeue_on_second_find: Alice alone, empty queue. -/
theorem c3_amended_requeue_on_second_find_witness :
    (handleFindPartner ⟨[], [], [(1, uAlice)], 0⟩ 1 3).2 =
      [⟨1, .searchingPartner⟩] ∧
    ((handleFindPartner ⟨[], [], [(1, uAlice)], 0⟩ 1 3).1.waitingUsers.filter
      (fun u => u.socketId == 1)).length = 1 ∧
    (handleFindPartner (handleFindPartner ⟨[], [], [(1, uAlice)], 0⟩ 1 3).1 1 4).2 =
      [⟨1, .searchingPartner⟩] ∧
    ((handleFindPartner (handleFindPartner ⟨[], [], [(1, uAlice)], 0⟩ 1 3).1 1
      4).1.waitingUsers.filter (fun u => u.socketId == 1)).length = 2 :=
  c3_amended_requeue_on_second_find ⟨[], [], [(1, uAlice)], 0⟩ uAlice 1 3 4
    (by decide) (by decide) (by decide) (by decide)

/-- Counterexample to C4: a registered connection with no room sending
webrtc-offer gets no error (the handler is a silent no-op), and one sending
accept-voice-call causes an emission to another connection. -/
theorem c4_counterexample_no_room_events :
    (handleEvent ⟨[], [], [(1, uAlice)], 0⟩ (.webrtcOffer 1 "o") 5) =
      (⟨[], [], [(1, uAlice)], 0⟩, []) ∧
    (handleEvent ⟨[], [], [(1, uAlice)], 0⟩ (.acceptVoiceCall 1 2) 5) =
      (⟨[], [], [(1, uAlice)], 0⟩, [⟨2, .voiceCallAccepted 1⟩]) := by
  decide

/-- C4 as amended: from a connection with no room, the message senders, the
call initiators and get-partner-location answer a 'Not in any chat room'
error to the sender only and change nothing; webrtc signaling, end-call and
typing events are silent no-ops; accept/reject call events perform no room
check and always forward to the supplied caller id. In all cases the state
is unchanged. -/
theorem c4_amended_no_room_behaviour (m : ChatManager) (sid callerId now : Nat)
    (text : String) (payload : String)
    (h : m.getRoomBySocketId sid = none) :
    handleSendMessage m sid text now = (m, [⟨sid, .errorMsg "Not in any chat room"⟩]) ∧
    handleSendMediaMessage m sid none none none none none none none now =
      (m, [⟨sid, .errorMsg "Not in any chat room"⟩]) ∧
    handleSendVoiceMessage m sid none none none now =
      (m, [⟨sid, .errorMsg "Not in any chat room"⟩]) ∧
    handleInitiateVoiceCall m sid = (m, [⟨sid, .errorMsg "Not in any chat room"⟩]) ∧
    handleInitiateVideoCall m sid = (m, [⟨sid, .errorMsg "Not in any chat room"⟩]) ∧
    handleGetPartnerLocation m sid = (m, [⟨sid, .errorMsg "Not in any chat room"⟩]) ∧
    handleWebrtcOffer m sid payload = (m, []) ∧
    handleWebrtcAnswer m sid payload = (m, []) ∧
    handleWebrtcIceCandidate m sid payload = (m, []) ∧
    handleEndVoiceCall m sid = (m, []) ∧
    handleEndVideoCall m sid = (m, []) ∧
    handleTypingStart m sid = (m, []) ∧
    handleTypingStop m sid = (m, []) ∧
    handleAcceptVoiceCall m sid callerId = (m, [⟨callerId, .voiceCallAccepted sid⟩]) ∧
    handleRejectVoiceCall m sid callerId = (m, [⟨callerId, .voiceCallRejected sid⟩]) ∧
    handleAcceptVideoCall m sid callerId = (m, [⟨callerId, .videoCallAccepted sid⟩]) ∧
    handleRejectVideoCall m sid callerId = (m, [⟨callerId, .videoCallRejected sid⟩]) := by
  refine ⟨?_, ?_, ?_, ?_, ?_, ?_, ?_, ?_, ?_, ?_, ?_, ?_, ?_, rfl, rfl, rfl, rfl⟩ <;>
    simp only [handleSendMessage, handleSendMediaMessage, handleSendVoiceMessage,
      handleInitiateVoiceCall, handleInitiateVideoCall, handleGetPartnerLocation,
      handleWebrtcOffer, handleWebrtcAnswer, handleWebrtcIceCandidate,
      handleEndVoiceCall, handleEndVideoCall, handleTypingStart, handleTypingStop, h]

/-- Witness for c4_amended_no_room_behaviour at a registered, room-free
connection. -/
theorem c4_amended_no_room_behaviour_witness :
    handleSendMessage ⟨[], [], [(1, uAlice)], 0⟩ 1 "hi" 5 =
      (⟨[], [], [(1, uAlice)], 0⟩, [⟨1, .errorMsg "Not in any chat room"⟩]) ∧
    handleSendMediaMessage ⟨[], [], [(1, uAlice)], 0⟩ 1 none none none none none none none 5 =
      (⟨[], [], [(1, uAlice)], 0⟩, [⟨1, .errorMsg "Not in any chat room"⟩]) ∧
    handleSendVoiceMessage ⟨[], [], [(1, uAlice)], 0⟩ 1 none none none 5 =
      (⟨[], [], [(1, uAlice)], 0⟩, [⟨1, .errorMsg "Not in any chat room"⟩]) ∧
    handleInitiateVoiceCall ⟨[], [], [(1, uAlice)], 0⟩ 1 =
      (⟨[], [], [(1, uAlice)], 0⟩, [⟨1, .errorMsg "Not in any chat room"⟩]) ∧
    handleInitiateVideoCall ⟨[], [], [(1, uAlice)], 0⟩ 1 =
      (⟨[], [], [(1, uAlice)], 0⟩, [⟨1, .errorMsg "Not in any chat room"⟩]) ∧
    handleGetPartnerLocation ⟨[], [], [(1, uAlice)], 0⟩ 1 =
      (⟨[], [], [(1, uAlice)], 0⟩, [⟨1, .errorMsg "Not in any chat room"⟩]) ∧
    handleWebrtcOffer ⟨[], [], [(1, uAlice)], 0⟩ 1 "p" = (⟨[], [], [(1, uAlice)], 0⟩, []) ∧
    handleWebrtcAnswer ⟨[], [], [(1, uAlice)], 0⟩ 1 "p" = (⟨[], [], [(1, uAlice)], 0⟩, []) ∧
    handleWebrtcIceCandidate ⟨[], [], [(1, uAlice)], 0⟩ 1 "p" =
      (⟨[], [], [(1, uAlice)], 0⟩, []) ∧
    handleEndVoiceCall ⟨[], [], [(1, uAlice)], 0⟩ 1 = (⟨[], [], [(1, uAlice)], 0⟩, []) ∧
    handleEndVideoCall ⟨[], [], [(1, uAlice)], 0⟩ 1 = (⟨[], [], [(1, uAlice)], 0⟩, []) ∧
    handleTypingStart ⟨[], [], [(1, uAlice)], 0⟩ 1 = (⟨[], [], [(1, uAlice)], 0⟩, []) ∧
    handleTypingStop ⟨[], [], [(1, uAlice)], 0⟩ 1 = (⟨[], [], [(1, uAlice)], 0⟩, []) ∧
    handleAcceptVoiceCall ⟨[], [], [(1, uAlice)], 0⟩ 1 2 =
      (⟨[], [], [(1, uAlice)], 0⟩, [⟨2, .voiceCallAccepted 1⟩]) ∧
    handleRejectVoiceCall ⟨[], [], [(1, uAlice)], 0⟩ 1 2 =
      (⟨[], [], [(1, uAlice)], 0⟩, [⟨2, .voiceCallRejected 1⟩]) ∧
    handleAcceptVideoCall ⟨[], [], [(1, uAlice)], 0⟩ 1 2 =
      (⟨[], [], [(1, uAlice)], 0⟩, [⟨2, .videoCallAccepted 1⟩]) ∧
    handleRejectVideoCall ⟨[], [], [(1, uAlice)], 0⟩ 1 2 =
      (⟨[], [], [(1, uAlice)], 0⟩, [⟨2, .videoCallRejected 1⟩]) :=
  c4_amended_no_room_behaviour ⟨[], [], [(1, uAlice)], 0⟩ 1 2 5 "hi" "p" (by decide)

lemma pairwise_rooms_spec {l : List Room}
    (h : l.Pairwise (fun r1 r2 =>
      r1.id ≠ r2.id ∧ ∀ s, memberOf s r1 → ¬ memberOf s r2)) :
    ∀ r1 ∈ l, ∀ r2 ∈ l, r1.id ≠ r2.id → ∀ s, memberOf s r1 → ¬ memberOf s r2 := by
  induction l with
  | nil => intro r1 h1; simp at h1
  | cons x xs ih =>
      rw [List.pairwise_cons] at h
      intro r1 h1 r2 h2 hne s hs1
      rcases List.mem_cons.mp h1 with rfl | h1' <;>
        rcases List.mem_cons.mp h2 with h2' | h2'
      · exact absurd (congrArg Room.id h2'.symm) hne
      · exact (h.1 r2 h2').2 s hs1
      · subst h2'
        intro hs2
        exact (h.1 r1 h1').2 s hs2 hs1
      · exact ih h.2 r1 h1' r2 h2' hne s hs1

lemma getRoomById_eq_of_mem {l : List Room} {r : Room}
    (h : l.Pairwise (fun r1 r2 =>
      r1.id ≠ r2.id ∧ ∀ s, memberOf s r1 → ¬ memberOf s r2))
    (hmem : r ∈ l) : l.find? (fun x => x.id == r.id) = some r := by
  induction l with
  | nil => simp at hmem
  | cons x xs ih =>
      rw [List.pairwise_cons] at h
      rcases List.mem_cons.mp hmem with rfl | hmem'
      · rw [List.find?_cons_of_pos _ (by simp)]
      · have hne : x.id ≠ r.id := (h.1 r hmem').1
        rw [List.find?_cons_of_neg _ (by simpa using hne)]
        exact ih h.2 hmem'

lemma handleDisconnect_noop {m : ChatManager} {sid : Nat}
    (hw : ∀ u ∈ m.waitingUsers, u.socketId ≠ sid)
    (hus : ∀ p ∈ m.userSockets, p.1 ≠ sid)
    (hr : m.getRoomBySocketId sid = none) :
    handleDisconnect m sid = (m, []) := by
  have e1 : m.removeWaitingUser sid = m := by
    unfold ChatManager.removeWaitingUser
    rw [List.filter_eq_self.mpr (fun u hu => by simpa using hw u hu)]
  have e2 : deleteEntry m.userSockets sid = m.userSockets :=
    List.filter_eq_self.mpr (fun p hp => by simpa using hus p hp)
  simp only [handleDisconnect, e1, e2]
  have e3 : ({ m with userSockets := m.userSockets } : ChatManager) = m := rfl
  rw [e3, hr]

/-- C5: disconnect of a room member removes the room (lookups by either
member's id then fail), removes the member's waiting entries and registry
profile, and emits exactly one partner-disconnected to the other member;
running disconnect again for the same connection changes nothing and emits
nothing. -/
theorem c5_disconnect_teardown_idempotent (m : ChatManager) (a : Nat) (r : Room)
    (hInv : StateInv m) (hr : m.getRoomBySocketId a = some r) :
    (handleDisconnect m a).2 =
      [⟨if r.user1.socketId = a then r.user2.socketId else r.user1.socketId,
        .partnerDisconnected⟩] ∧
    (handleDisconnect m a).1.getRoomBySocketId a = none ∧
    (handleDisconnect m a).1.getRoomBySocketId
      (if r.user1.socketId = a then r.user2.socketId else r.user1.socketId) = none ∧
    (∀ u ∈ (handleDisconnect m a).1.waitingUsers, u.socketId ≠ a) ∧
    lookupUser (handleDisconnect m a).1.userSockets a = none ∧
    handleDisconnect (handleDisconnect m a).1 a = ((handleDisconnect m a).1, []) := by
  obtain ⟨h1, h2, h3, h4, h5⟩ := hInv
  obtain ⟨hrmem, hrmemb⟩ := getRoomBySocketId_eq_some hr
  set b := if r.user1.socketId = a then r.user2.socketId else r.user1.socketId with hbdef
  have hmb : memberOf b r := by
    rw [hbdef, memberOf]
    by_cases h' : r.user1.socketId = a
    · rw [if_pos h']; right; rfl
    · rw [if_neg h']; left; rfl
  set m2 : ChatManager :=
    { m.removeWaitingUser a with
      userSockets := deleteEntry (m.removeWaitingUser a).userSockets a } with hm2
  have hr2 : m2.getRoomBySocketId a = some r := hr
  have hid2 : m2.getRoomById r.id = some r := getRoomById_eq_of_mem h2 hrmem
  have hpartner : m2.getPartnerSocketId r.id a = some b := by
    unfold ChatManager.getPartnerSocketId
    rw [hid2, hbdef]
    by_cases h' : r.user1.socketId = a
    · simp [h']
    · rcases hrmemb with h'' | h''
      · exact absurd h'' h'
      · simp [h', h'']
  have hstep : handleDisconnect m a = (m2.removeRoom r.id, [⟨b, .partnerDisconnected⟩]) := by
    show (match m2.getRoomBySocketId a with
      | some room => (m2.removeRoom room.id,
          match m2.getPartnerSocketId room.id a with
          | some pid => [Emit.mk pid OutEvent.partnerDisconnected]
          | none => ([] : List Emit))
      | none => (m2, ([] : List Emit))) = _
    rw [hr2]
    show (m2.removeRoom r.id,
      match m2.getPartnerSocketId r.id a with
      | some pid => [Emit.mk pid OutEvent.partnerDisconnected]
      | none => ([] : List Emit)) = _
    rw [hpartner]
  rw [hstep]
  have hrooms : (m2.removeRoom r.id).activeRooms =
      m.activeRooms.filter (fun x => x.id != r.id) := rfl
  have hnone_a : (m2.removeRoom r.id).getRoomBySocketId a = none := by
    rw [getRoomBySocketId_eq_none_iff]
    intro r2 hr2m
    rw [hrooms, List.mem_filter] at hr2m
    exact pairwise_rooms_spec h2 r hrmem r2 hr2m.1
      (fun he => by simp [he] at hr2m) a hrmemb
  have hnone_b : (m2.removeRoom r.id).getRoomBySocketId b = none := by
    rw [getRoomBySocketId_eq_none_iff]
    intro r2 hr2m
    rw [hrooms, List.mem_filter] at hr2m
    exact pairwise_rooms_spec h2 r hrmem r2 hr2m.1
      (fun he => by simp [he] at hr2m) b hmb
  have hwait : ∀ u ∈ (m2.removeRoom r.id).waitingUsers, u.socketId ≠ a := by
    intro u hu
    have hu' : u ∈ m.waitingUsers.filter (fun v => v.socketId != a) := hu
    have := (List.mem_filter.mp hu').2
    simpa using this
  have hus : ∀ p ∈ (m2.removeRoom r.id).userSockets, p.1 ≠ a := by
    intro p hp
    have hp' : p ∈ (m.removeWaitingUser a).userSockets.filter (fun q => q.1 != a) := hp
    have := (List.mem_filter.mp hp').2
    simpa using this
  have hlook : lookupUser (m2.removeRoom r.id).userSockets a = none := by
    unfold lookupUser
    rw [List.find?_eq_none.mpr (fun p hp => by simpa using hus p hp)]
    rfl
  exact ⟨rfl, hnone_a, hnone_b, hwait, hlook,
    handleDisconnect_noop hwait hus hnone_a⟩

/-- Witness for c5_disconnect_teardown_idempotent: Alice disconnects from the
room she shares with Bob. -/
theorem c5_disconnect_teardown_idempotent_witness :
    ((handleDisconnect mgrAB 1).2 =
      [⟨if roomAB.user1.socketId = 1 then roomAB.user2.socketId
        else roomAB.user1.socketId, .partnerDisconnected⟩] ∧
    (handleDisconnect mgrAB 1).1.getRoomBySocketId 1 = none ∧
    (handleDisconnect mgrAB 1).1.getRoomBySocketId
      (if roomAB.user1.socketId = 1 then roomAB.user2.socketId
        else roomAB.user1.socketId) = none ∧
    (∀ u ∈ (handleDisconnect mgrAB 1).1.waitingUsers, u.socketId ≠ 1) ∧
    lookupUser (handleDisconnect mgrAB 1).1.userSockets 1 = none ∧
    handleDisconnect (handleDisconnect mgrAB 1).1 1 =
      ((handleDisconnect mgrAB 1).1, [])) :=
  c5_disconnect_teardown_idempotent mgrAB 1 roomAB
    ⟨by decide, List.pairwise_singleton _ _, by decide, by decide, by decide⟩
    (by decide)

/-- C6 evaluation at the failing input: both users carry coordinates
(equator/prime-meridian points (0,0) and (0,1)), yet calculateDistance and
the room built from them report a null distance, because the guard treats
the valid coordinate 0 as a missing value. -/
theorem c6_distance_zero_coordinate_null :
    calculateDistance (some 0) (some 0) (some 0) (some 1) = none ∧
    ((⟨[], [], [], 0⟩ : ChatManager).createRoom
      { socketId := 1, nickname := none, joinedAt := 0,
        location := some ⟨"EC", "Equator", "Origin", some 0, some 0⟩ }
      { socketId := 2, nickname := none, joinedAt := 0,
        location := some ⟨"EC", "Equator", "East", some 0, some 1⟩ } 0).1.distance =
      none := by
  constructor
  · rfl
  · rfl

/-- Message literal built by the send-message handler. -/
def textMessage (nextId a : Nat) (text : String) (now : Nat) : Message :=
  { id := nextId, kind := "text", content := some text, senderId := a,
    timestamp := now, mediaType := none, thumbnailUrl := none, filename := none,
    originalName := none, mimetype := none, size := none, duration := none }

/-- C7: a send-message from a room member appends exactly one message (with
the generated id, the sender id, the timestamp) to that room's log, delivers
exactly one new-message to each of the two distinct members (the sender being
one of them), leaves every other room's log untouched and changes neither the
queue nor the registry. -/
theorem c7_send_message_in_room (m : ChatManager) (a : Nat) (text : String)
    (now : Nat) (r : Room) (hInv : StateInv m)
    (hr : m.getRoomBySocketId a = some r) :
    (handleSendMessage m a text now).2 =
      [⟨r.user1.socketId, .newMessage (textMessage m.nextId a text now)⟩,
       ⟨r.user2.socketId, .newMessage (textMessage m.nextId a text now)⟩] ∧
    r.user1.socketId ≠ r.user2.socketId ∧
    (r.user1.socketId = a ∨ r.user2.socketId = a) ∧
    (handleSendMessage m a text now).1.activeRooms =
      m.activeRooms.map (fun r2 => if r2.id == r.id then
        { r2 with messages := r2.messages ++
          [{ textMessage m.nextId a text now with timestamp := now }] } else r2) ∧
    { r with messages := r.messages ++
        [{ textMessage m.nextId a text now with timestamp := now }] } ∈
      (handleSendMessage m a text now).1.activeRooms ∧
    (∀ r2 ∈ m.activeRooms, r2.id ≠ r.id →
      r2 ∈ (handleSendMessage m a text now).1.activeRooms) ∧
    (handleSendMessage m a text now).1.waitingUsers = m.waitingUsers ∧
    (handleSendMessage m a text now).1.userSockets = m.userSockets := by
  obtain ⟨hrmem, hrmemb⟩ := getRoomBySocketId_eq_some hr
  have hstep : handleSendMessage m a text now =
      (({ m with nextId := m.nextId + 1 }).addMessageToRoom r.id
        (textMessage m.nextId a text now) now,
       [⟨r.user1.socketId, .newMessage (textMessage m.nextId a text now)⟩,
        ⟨r.user2.socketId, .newMessage (textMessage m.nextId a text now)⟩]) := by
    unfold handleSendMessage
    rw [hr]
    rfl
  rw [hstep]
  have hmap : (({ m with nextId := m.nextId + 1 }).addMessageToRoom r.id
      (textMessage m.nextId a text now) now).activeRooms =
      m.activeRooms.map (fun r2 => if r2.id == r.id then
        { r2 with messages := r2.messages ++
          [{ textMessage m.nextId a text now with timestamp := now }] } else r2) := rfl
  refine ⟨rfl, hInv.1 r hrmem, hrmemb, hmap, ?_, ?_, rfl, rfl⟩
  · rw [hmap]
    have := List.mem_map_of_mem (fun r2 => if r2.id == r.id then
      { r2 with messages := r2.messages ++
        [{ textMessage m.nextId a text now with timestamp := now }] } else r2) hrmem
    simpa using this
  · intro r2 h2m h2ne
    rw [hmap]
    have := List.mem_map_of_mem (fun r3 => if r3.id == r.id then
      { r3 with messages := r3.messages ++
        [{ textMessage m.nextId a text now with timestamp := now }] } else r3) h2m
    have hne : (r2.id == r.id) = false := by simpa using h2ne
    simpa [hne] using this

/-- Witness for c7_send_message_in_room: Alice messages Bob in their room. -/
theorem c7_send_message_in_room_witness :
    (handleSendMessage mgrAB 1 "hello" 6).2 =
      [⟨roomAB.user1.socketId, .newMessage (textMessage mgrAB.nextId 1 "hello" 6)⟩,
       ⟨roomAB.user2.socketId, .newMessage (textMessage mgrAB.nextId 1 "hello" 6)⟩] ∧
    roomAB.user1.socketId ≠ roomAB.user2.socketId ∧
    (roomAB.user1.socketId = 1 ∨ roomAB.user2.socketId = 1) ∧
    (handleSendMessage mgrAB 1 "hello" 6).1.activeRooms =
      mgrAB.activeRooms.map (fun r2 => if r2.id == roomAB.id then
        { r2 with messages := r2.messages ++
          [{ textMessage mgrAB.nextId 1 "hello" 6 with timestamp := 6 }] } else r2) ∧
    { roomAB with messages := roomAB.messages ++
        [{ textMessage mgrAB.nextId 1 "hello" 6 with timestamp := 6 }] } ∈
      (handleSendMessage mgrAB 1 "hello" 6).1.activeRooms ∧
    (∀ r2 ∈ mgrAB.activeRooms, r2.id ≠ roomAB.id →
      r2 ∈ (handleSendMessage mgrAB 1 "hello" 6).1.activeRooms) ∧
    (handleSendMessage mgrAB 1 "hello" 6).1.waitingUsers = mgrAB.waitingUsers ∧
    (handleSendMessage mgrAB 1 "hello" 6).1.userSockets = mgrAB.userSockets :=
  c7_send_message_in_room mgrAB 1 "hello" 6 roomAB
    ⟨by decide, List.pairwise_singleton _ _, by decide, by decide, by decide⟩
    (by decide)

/-- C10: stop-chat always emits exactly one chat-stopped, addressed to the
requester, whatever the state; and when the requester is neither waiting nor
in any room it changes nothing and emits nothing else. -/
theorem c10_stop_chat_ack_and_frame (m : ChatManager) (sid : Nat) :
    ((handleStopChat m sid).2.filter (fun e => e.event == OutEvent.chatStopped)) =
      [⟨sid, .chatStopped⟩] ∧
    ((∀ u ∈ m.waitingUsers, u.socketId ≠ sid) → m.getRoomBySocketId sid = none →
      handleStopChat m sid = (m, [⟨sid, .chatStopped⟩])) := by
  constructor
  · simp only [handleStopChat]
    cases hgr : (m.removeWaitingUser sid).getRoomBySocketId sid with
    | none => simp [hgr]
    | some room =>
        cases hp : (m.removeWaitingUser sid).getPartnerSocketId room.id sid with
        | none => simp [hgr, hp]
        | some pid => simp [hgr, hp]
  · intro hw hnr
    have e1 : m.removeWaitingUser sid = m := by
      unfold ChatManager.removeWaitingUser
      rw [List.filter_eq_self.mpr (fun u hu => by simpa using hw u hu)]
    simp only [handleStopChat, e1, hnr]

/-- Witness for c10_stop_chat_ack_and_frame: a registered connection that is
neither waiting nor in a room. -/
theorem c10_stop_chat_ack_and_frame_witness :
    ((handleStopChat ⟨[], [], [(1, uAlice)], 0⟩ 1).2.filter
      (fun e => e.event == OutEvent.chatStopped)) = [⟨1, .chatStopped⟩] ∧
    handleStopChat ⟨[], [], [(1, uAlice)], 0⟩ 1 =
      (⟨[], [], [(1, uAlice)], 0⟩, [⟨1, .chatStopped⟩]) :=
  ⟨(c10_stop_chat_ack_and_frame ⟨[], [], [(1, uAlice)], 0⟩ 1).1,
   (c10_stop_chat_ack_and_frame ⟨[], [], [(1, uAlice)], 0⟩ 1).2
     (by decide) (by decide)⟩
